import Mathlib

/-!
Verification of the aws-autoscaling-rollout script.

This file gives a shallow embedding of the rollout script
(src/aws-autoscaling-rollout/aws-autoscaling-rollout.py) and proves or
refutes the specified properties about it.

Modelling conventions:
  * AWS API dictionaries become structures carrying exactly the fields the
    script reads.  The launch configuration / launch template fallback chain
    of get_autoscaling_group_configuration and get_instance_configuration is
    collapsed into a single resolved identifier field
    (launchConfigurationName), since no claim depends on the fallback
    resolution itself.
  * The unbounded polling loops poll external state once per iteration; a
    loop is modelled as a function over the (finite) list of snapshots the
    successive iterations would observe, returning the snapshot at which the
    loop body breaks, or none if it never breaks within the given polls.
  * The top-level script is modelled as a function from its inputs (CLI
    options, the successive autoscaler fetches, and an environment giving
    the success/failure of each mutating API call) to the list of mutating
    API calls it issues plus the process exit code.  Read-only calls and
    sleeps issue no events.  An uncaught Python exception terminates the
    process with exit code 1, like exit(1).
-/

/-- One member of an autoscaling group, as the script reads it from an
AutoScalingGroups[].Instances[] record. -/
structure InstanceRef where
  instanceId : String
  healthStatus : String
  launchConfigurationName : String
deriving DecidableEq

/-- An autoscaling group descriptor, carrying the fields the script reads
from describe_auto_scaling_groups. -/
structure Autoscaler where
  autoScalingGroupName : String
  maxSize : Nat
  desiredCapacity : Nat
  loadBalancerNames : List String
  targetGroupARNs : List String
  suspendedProcesses : List String
  instances : List InstanceRef
  launchConfigurationName : String
deriving DecidableEq

/-- CLI options of the script (optparse section). -/
structure CliOptions where
  autoscaler : String
  force : Bool
  skip : Bool
  waitforseconds : Nat
  checkifnewserverisupcommand : String
  runbeforeserverdowncommand : String
  runafterserverdowncommand : String
  checkifinstancesneedtobeterminated : Bool
deriving DecidableEq

/-- get_autoscaler_healthy_instances: the members whose HealthStatus is
the literal string Healthy, in fleet order. -/
def get_autoscaler_healthy_instances (a : Autoscaler) : List InstanceRef :=
  a.instances.filter (fun i => i.healthStatus == "Healthy")

/-- get_number_of_autoscaler_healthy_instances. -/
def get_number_of_autoscaler_healthy_instances (a : Autoscaler) : Nat :=
  (get_autoscaler_healthy_instances a).length

/-- get_suspended_processes: the ProcessName entries of SuspendedProcesses
(the structure stores the names directly). -/
def get_suspended_processes (a : Autoscaler) : List String :=
  a.suspendedProcesses

/-- check_if_autoscaler_is_scaling: true iff the healthy instance count
differs from the desired capacity in the freshly fetched descriptor. -/
def check_if_autoscaler_is_scaling (a : Autoscaler) : Bool :=
  get_number_of_autoscaler_healthy_instances a != a.desiredCapacity

/-- The inner for loop of find_aws_instances_in_first_list_but_not_in_second:
found starts False and is set True whenever a member of the second list has
the same InstanceId. -/
def instanceFoundIn (x : InstanceRef) (l : List InstanceRef) : Bool :=
  l.foldl (fun found y => if y.instanceId == x.instanceId then true else found) false

/-- find_aws_instances_in_first_list_but_not_in_second: appends to the
output every element of the first list that was not found (by InstanceId)
in the second list. -/
def find_aws_instances_in_first_list_but_not_in_second
    (array_one array_two : List InstanceRef) : List InstanceRef :=
  array_one.foldl
    (fun output x => if instanceFoundIn x array_two then output else output ++ [x]) []

/-- Modelled from the spec: computeNewlyAppeared(previousMembers,
currentMembers) is the set difference by instanceId, in the order of
currentMembers.  Stated from the spec wording to be compared with the
source function above. -/
def computeNewlyAppeared (previousMembers currentMembers : List InstanceRef) : List InstanceRef :=
  currentMembers.filter
    (fun x => !(previousMembers.any (fun y => y.instanceId == x.instanceId)))

section FindLemmas

theorem instanceFoundIn_eq_any (x : InstanceRef) (l : List InstanceRef) :
    instanceFoundIn x l = l.any (fun y => y.instanceId == x.instanceId) := by
  unfold instanceFoundIn
  have hfun :
      (fun (found : Bool) (y : InstanceRef) =>
          if y.instanceId == x.instanceId then true else found)
        = fun found y => ((y.instanceId == x.instanceId) || found) := by
    funext found y
    by_cases h : y.instanceId == x.instanceId <;> simp [h]
  rw [hfun]
  suffices h : ∀ (c : Bool),
      l.foldl (fun found y => ((y.instanceId == x.instanceId) || found)) c
        = (c || l.any (fun y => y.instanceId == x.instanceId)) by
    simpa using h false
  induction l with
  | nil => intro c; simp
  | cons y ys ih =>
      intro c
      simp only [List.foldl_cons, List.any_cons, ih]
      cases h : (y.instanceId == x.instanceId) <;> cases c <;> simp [h]

theorem find_aws_eq_filter (a b : List InstanceRef) :
    find_aws_instances_in_first_list_but_not_in_second a b
      = a.filter (fun x => !(instanceFoundIn x b)) := by
  unfold find_aws_instances_in_first_list_but_not_in_second
  suffices h : ∀ (acc : List InstanceRef),
      a.foldl (fun output x => if instanceFoundIn x b then output else output ++ [x]) acc
        = acc ++ a.filter (fun x => !(instanceFoundIn x b)) by
    simpa using h []
  induction a with
  | nil => intro acc; simp
  | cons x xs ih =>
      intro acc
      rw [List.foldl_cons]
      simp only [List.filter_cons]
      cases h : instanceFoundIn x b
      · rw [if_neg (by simp [h]), ih (acc ++ [x])]
        simp [h]
      · rw [if_pos (by simp [h]), ih acc]
        simp [h]

end FindLemmas

/-- C8: the newly-appeared computation on two instance lists returns exactly
the instances of the current (first-argument) list whose instanceId does not
occur in the previous (second-argument) list, preserving the order of the
current list (it agrees with the spec-side computeNewlyAppeared and is a
sublist of the current list); it is empty iff every id of the current list
occurs in the previous list; and re-applying it to the same inputs yields
the same result. -/
theorem find_aws_instances_newly_appeared_spec (curr prev : List InstanceRef) :
    (find_aws_instances_in_first_list_but_not_in_second curr prev
        = computeNewlyAppeared prev curr) ∧
    (find_aws_instances_in_first_list_but_not_in_second curr prev).Sublist curr ∧
    (find_aws_instances_in_first_list_but_not_in_second curr prev = []
        ↔ ∀ x ∈ curr, ∃ y ∈ prev, y.instanceId = x.instanceId) ∧
    (find_aws_instances_in_first_list_but_not_in_second curr prev
        = find_aws_instances_in_first_list_but_not_in_second curr prev) := by
  refine ⟨?_, ?_, ?_, rfl⟩
  · rw [find_aws_eq_filter]
    unfold computeNewlyAppeared
    apply List.filter_congr
    intro x _
    rw [instanceFoundIn_eq_any]
  · rw [find_aws_eq_filter]; exact List.filter_sublist _
  · rw [find_aws_eq_filter, List.filter_eq_nil_iff]
    constructor
    · intro h x hx
      have hx2 := h x hx
      simpa [instanceFoundIn_eq_any] using hx2
    · intro h x hx
      have hx2 := h x hx
      simp [instanceFoundIn_eq_any]
      rcases hx2 with ⟨y, hy, hyx⟩
      exact ⟨y, hy, hyx⟩

/-! ### Polling loops

Each while True polling loop of the script is modelled over the finite list
of snapshots its successive iterations would observe: runWait returns the
snapshot at which the loop body breaks, or none if no listed poll satisfies
the break condition (the real loop would still be waiting). -/

/-- Generic polling loop: return the first poll satisfying the break
condition. -/
def runWait {α : Type} (cond : α → Bool) : List α → Option α
  | [] => none
  | p :: rest => if cond p then some p else runWait cond rest

theorem runWait_eq_some {α : Type} (cond : α → Bool) (polls : List α) (p : α)
    (h : runWait cond polls = some p) : cond p = true ∧ p ∈ polls := by
  induction polls with
  | nil => simp [runWait] at h
  | cons q rest ih =>
      simp only [runWait] at h
      by_cases hq : cond q
      · rw [if_pos hq] at h
        cases h
        exact ⟨hq, List.mem_cons_self _ _⟩
      · rw [if_neg hq] at h
        rcases ih h with ⟨h1, h2⟩
        exact ⟨h1, List.mem_cons_of_mem _ h2⟩

/-- One entry of a describe_target_health response: the Target.Id and the
TargetHealth.State read by the script. -/
structure TargetHealthDescription where
  targetId : String
  state : String
deriving DecidableEq

/-- The loop body of wait_for_complete_targetgroup_autoscaler_attachment
collects the ids of targets whose TargetHealth.State is the literal string
healthy. -/
def targetgroup_healthy_instance_ids (targets : List TargetHealthDescription) : List String :=
  (targets.filter (fun t => t.state == "healthy")).map (fun t => t.targetId)

/-- One iteration of wait_for_complete_targetgroup_autoscaler_attachment
observes a target-group health snapshot and a freshly fetched autoscaler. -/
structure TgAttachPoll where
  targets : List TargetHealthDescription
  autoscaler : Autoscaler
deriving DecidableEq

/-- successes: how many healthy autoscaler members are reported healthy in
the target group at this poll. -/
def tg_attachment_successes (p : TgAttachPoll) : Nat :=
  (get_autoscaler_healthy_instances p.autoscaler).countP
    (fun i => (targetgroup_healthy_instance_ids p.targets).contains i.instanceId)

/-- The break condition of the target-group attachment wait: successes
at least the healthy-member count, and DesiredCapacity equal to successes. -/
def tg_attachment_break (p : TgAttachPoll) : Bool :=
  decide (tg_attachment_successes p ≥ (get_autoscaler_healthy_instances p.autoscaler).length)
    && (p.autoscaler.desiredCapacity == tg_attachment_successes p)

/-- wait_for_complete_targetgroup_autoscaler_attachment over the successive
polls the loop would observe. -/
def wait_for_complete_targetgroup_autoscaler_attachment
    (polls : List TgAttachPoll) : Option TgAttachPoll :=
  runWait tg_attachment_break polls

/-- One entry of a describe_instance_health response: InstanceId and State. -/
structure InstanceState where
  instanceId : String
  state : String
deriving DecidableEq

/-- flatten_instance_health_array_from_loadbalancer_only_healthy: the ids of
entries whose State is the literal string InService. -/
def flatten_instance_health_array_from_loadbalancer_only_healthy
    (input_instance_array : List InstanceState) : List String :=
  (input_instance_array.filter (fun s => s.state == "InService")).map (fun s => s.instanceId)

/-- One iteration of wait_for_complete_loadbalancer_autoscaler_attachment
observes the instance states of the load balancer and a freshly fetched
autoscaler. -/
structure LbAttachPoll where
  instanceStates : List InstanceState
  autoscaler : Autoscaler
deriving DecidableEq

/-- successes: how many healthy autoscaler members are InService on the
load balancer at this poll. -/
def lb_attachment_successes (p : LbAttachPoll) : Nat :=
  (get_autoscaler_healthy_instances p.autoscaler).countP
    (fun i =>
      (flatten_instance_health_array_from_loadbalancer_only_healthy p.instanceStates).contains
        i.instanceId)

/-- The break condition of the classic load balancer attachment wait. -/
def lb_attachment_break (p : LbAttachPoll) : Bool :=
  decide (lb_attachment_successes p ≥ (get_autoscaler_healthy_instances p.autoscaler).length)
    && (p.autoscaler.desiredCapacity == lb_attachment_successes p)

/-- wait_for_complete_loadbalancer_autoscaler_attachment over the successive
polls the loop would observe. -/
def wait_for_complete_loadbalancer_autoscaler_attachment
    (polls : List LbAttachPoll) : Option LbAttachPoll :=
  runWait lb_attachment_break polls

/-- If at least as many members pass the membership test as the length of
the list, every member passes it. -/
theorem countP_ge_length_all {α : Type} (l : List α) (f : α → Bool)
    (h : l.countP f ≥ l.length) : ∀ x ∈ l, f x = true := by
  have hle : l.countP f ≤ l.length := List.countP_le_length f
  have heq : l.countP f = l.length := Nat.le_antisymm hle h
  exact List.countP_eq_length.mp heq

theorem contains_eq_true_mem (ids : List String) (s : String)
    (h : ids.contains s = true) : s ∈ ids := by
  simpa using h

/-- The break condition of wait_for_instances_to_detach_from_loadbalancer:
the failure count is zero, where every listed instance id still present in
the load balancer membership counts as one failure. -/
def lb_detach_break (instance_ids : List String) (lb_instances : List String) : Bool :=
  (instance_ids.countP (fun i => lb_instances.contains i)) == 0

/-- wait_for_instances_to_detach_from_loadbalancer over the successive
membership snapshots (get_instance_ids_of_load_balancer results) the loop
would observe. -/
def wait_for_instances_to_detach_from_loadbalancer
    (instance_ids : List String) (polls : List (List String)) : Option (List String) :=
  runWait (lb_detach_break instance_ids) polls

/-- The break condition of wait_for_instances_to_detach_from_target_group:
zero failures, where membership is every Target.Id of the health
descriptions regardless of its health state. -/
def tg_detach_break (instance_ids : List String)
    (targets : List TargetHealthDescription) : Bool :=
  (instance_ids.countP (fun i => (targets.map (fun t => t.targetId)).contains i)) == 0

/-- wait_for_instances_to_detach_from_target_group over the successive
describe_target_health snapshots the loop would observe. -/
def wait_for_instances_to_detach_from_target_group
    (instance_ids : List String) (polls : List (List TargetHealthDescription)) :
    Option (List TargetHealthDescription) :=
  runWait (tg_detach_break instance_ids) polls

/-- The break condition of wait_for_autoscaler_to_have_healthy_desired_instances,
with desired_capacity frozen at loop entry.  Each iteration makes two fresh
fetches: one for the healthy-instance count and, if that matches, one inside
check_if_autoscaler_is_scaling; the pair carries both snapshots. -/
def wait_healthy_desired_break (desired_capacity : Nat)
    (poll : Autoscaler × Autoscaler) : Bool :=
  (desired_capacity == get_number_of_autoscaler_healthy_instances poll.1)
    && !(check_if_autoscaler_is_scaling poll.2)

/-- wait_for_autoscaler_to_have_healthy_desired_instances: the desired
capacity is read once from the descriptor given at entry, then the loop
polls until the healthy count matches it and the autoscaler is not
scaling. -/
def wait_for_autoscaler_to_have_healthy_desired_instances
    (autoscaler_description : Autoscaler) (polls : List (Autoscaler × Autoscaler)) :
    Option (Autoscaler × Autoscaler) :=
  runWait (wait_healthy_desired_break autoscaler_description.desiredCapacity) polls

/-- C2: whenever the full-attachment wait (for a target group or for a
classic load balancer) returns, at the returning poll every currently
healthy fleet member is present and reported healthy (resp. InService) in
the traffic source, and the healthy-in-service count equals the desired
capacity fetched in the same iteration; for any sequence of polls. -/
theorem attachment_waits_return_only_fully_attached
    (tgPolls : List TgAttachPoll) (lbPolls : List LbAttachPoll)
    (tgp : TgAttachPoll) (lbp : LbAttachPoll)
    (h1 : wait_for_complete_targetgroup_autoscaler_attachment tgPolls = some tgp)
    (h2 : wait_for_complete_loadbalancer_autoscaler_attachment lbPolls = some lbp) :
    ((∀ i ∈ get_autoscaler_healthy_instances tgp.autoscaler,
        i.instanceId ∈ targetgroup_healthy_instance_ids tgp.targets) ∧
      tg_attachment_successes tgp = tgp.autoscaler.desiredCapacity) ∧
    ((∀ i ∈ get_autoscaler_healthy_instances lbp.autoscaler,
        i.instanceId ∈
          flatten_instance_health_array_from_loadbalancer_only_healthy lbp.instanceStates) ∧
      lb_attachment_successes lbp = lbp.autoscaler.desiredCapacity) := by
  have hb1 := (runWait_eq_some _ _ _ h1).1
  have hb2 := (runWait_eq_some _ _ _ h2).1
  unfold tg_attachment_break at hb1
  unfold lb_attachment_break at hb2
  rw [Bool.and_eq_true] at hb1 hb2
  constructor
  · refine ⟨?_, ?_⟩
    · intro i hi
      have hall := countP_ge_length_all _ _ (of_decide_eq_true hb1.1)
      exact contains_eq_true_mem _ _ (hall i hi)
    · exact (eq_of_beq hb1.2).symm
  · refine ⟨?_, ?_⟩
    · intro i hi
      have hall := countP_ge_length_all _ _ (of_decide_eq_true hb2.1)
      exact contains_eq_true_mem _ _ (hall i hi)
    · exact (eq_of_beq hb2.2).symm

/-- C7: whenever the detachment wait (for a classic load balancer or for a
target group) returns, at the returning membership snapshot none of the
input instance ids is present, regardless of the health state reported for
it; for any input id set and any sequence of snapshots. -/
theorem detach_waits_return_only_when_absent
    (instance_ids : List String)
    (lbPolls : List (List String)) (tgPolls : List (List TargetHealthDescription))
    (lbp : List String) (tgp : List TargetHealthDescription)
    (h1 : wait_for_instances_to_detach_from_loadbalancer instance_ids lbPolls = some lbp)
    (h2 : wait_for_instances_to_detach_from_target_group instance_ids tgPolls = some tgp) :
    (∀ i ∈ instance_ids, i ∉ lbp) ∧
    (∀ i ∈ instance_ids, i ∉ tgp.map (fun t => t.targetId)) := by
  have hb1 := (runWait_eq_some _ _ _ h1).1
  have hb2 := (runWait_eq_some _ _ _ h2).1
  unfold lb_detach_break at hb1
  unfold tg_detach_break at hb2
  have hz1 : instance_ids.countP (fun i => lbp.contains i) = 0 := eq_of_beq hb1
  have hz2 : instance_ids.countP
      (fun i => (tgp.map (fun t => t.targetId)).contains i) = 0 := eq_of_beq hb2
  constructor
  · intro i hi hmem
    exact List.countP_eq_zero.mp hz1 i hi (by simpa using hmem)
  · intro i hi hmem
    exact List.countP_eq_zero.mp hz2 i hi (by simpa using hmem)

/-- C10: whenever wait_for_autoscaler_to_have_healthy_desired_instances
returns, the healthy count polled first in the returning iteration equals
the desired capacity frozen from the descriptor given at entry, and the
healthy count polled inside check_if_autoscaler_is_scaling in the same
iteration equals the desired capacity fetched there; so if desired capacity
changed after the wait started, the wait returns only in an iteration where
the healthy count matches both the frozen and the freshly fetched value. -/
theorem healthy_desired_wait_frozen_capacity
    (entry : Autoscaler) (polls : List (Autoscaler × Autoscaler))
    (p : Autoscaler × Autoscaler)
    (h : wait_for_autoscaler_to_have_healthy_desired_instances entry polls = some p) :
    get_number_of_autoscaler_healthy_instances p.1 = entry.desiredCapacity ∧
    get_number_of_autoscaler_healthy_instances p.2 = p.2.desiredCapacity := by
  have hb := (runWait_eq_some _ _ _ h).1
  unfold wait_healthy_desired_break at hb
  rw [Bool.and_eq_true] at hb
  refine ⟨(eq_of_beq hb.1).symm, ?_⟩
  have h2 := hb.2
  unfold check_if_autoscaler_is_scaling at h2
  simpa using h2

/-- A one-member healthy fleet used as a concrete poll input in witnesses. -/
def witnessAsg : Autoscaler :=
  { autoScalingGroupName := "web"
    maxSize := 2
    desiredCapacity := 1
    loadBalancerNames := ["lb1"]
    targetGroupARNs := ["tg1"]
    suspendedProcesses := []
    instances := [{ instanceId := "i-a", healthStatus := "Healthy",
                    launchConfigurationName := "lc1" }]
    launchConfigurationName := "lc1" }

/-- A target-group poll where the sole healthy member is healthy. -/
def witnessTgPoll : TgAttachPoll := ⟨[⟨"i-a", "healthy"⟩], witnessAsg⟩

/-- A load-balancer poll where the sole healthy member is InService. -/
def witnessLbPoll : LbAttachPoll := ⟨[⟨"i-a", "InService"⟩], witnessAsg⟩

theorem attachment_waits_return_only_fully_attached_witness :
    ((∀ i ∈ get_autoscaler_healthy_instances witnessTgPoll.autoscaler,
        i.instanceId ∈ targetgroup_healthy_instance_ids witnessTgPoll.targets) ∧
      tg_attachment_successes witnessTgPoll = witnessTgPoll.autoscaler.desiredCapacity) ∧
    ((∀ i ∈ get_autoscaler_healthy_instances witnessLbPoll.autoscaler,
        i.instanceId ∈
          flatten_instance_health_array_from_loadbalancer_only_healthy
            witnessLbPoll.instanceStates) ∧
      lb_attachment_successes witnessLbPoll = witnessLbPoll.autoscaler.desiredCapacity) :=
  attachment_waits_return_only_fully_attached [witnessTgPoll] [witnessLbPoll]
    witnessTgPoll witnessLbPoll (by decide) (by decide)

theorem detach_waits_return_only_when_absent_witness :
    (∀ i ∈ ["i-old"], i ∉ ([] : List String)) ∧
    (∀ i ∈ ["i-old"], i ∉ ([] : List TargetHealthDescription).map (fun t => t.targetId)) :=
  detach_waits_return_only_when_absent ["i-old"] [[]] [[]] [] [] (by decide) (by decide)

theorem healthy_desired_wait_frozen_capacity_witness :
    get_number_of_autoscaler_healthy_instances (witnessAsg, witnessAsg).1
        = witnessAsg.desiredCapacity ∧
    get_number_of_autoscaler_healthy_instances (witnessAsg, witnessAsg).2
        = (witnessAsg, witnessAsg).2.desiredCapacity :=
  healthy_desired_wait_frozen_capacity witnessAsg [(witnessAsg, witnessAsg)]
    (witnessAsg, witnessAsg) (by decide)

/-- Outcome of one up-check iteration for one new instance inside the try
block of the checkifnewserverisupcommand loop: either the instance detail
was resolved and the external command ran, returning retval, or an
exception (for example describe_instance failing) was raised and caught by
the bare except clause. -/
inductive CheckOutcome where
  | resolved (retval : Int)
  | describeRaised
deriving DecidableEq

/-- One round of the for new_instance loop: succeeded_health_up_check
starts True; a resolved invocation with nonzero retval sets it False; a
raised exception only logs a warning and leaves it unchanged. -/
def succeeded_health_up_check (outcomes : List CheckOutcome) : Bool :=
  outcomes.foldl
    (fun succeeded o =>
      match o with
      | CheckOutcome.resolved retval => if retval != 0 then false else succeeded
      | CheckOutcome.describeRaised => succeeded)
    true

/-- The while True loop around the custom up-check: one round checks every
new instance; the loop breaks when succeeded_health_up_check is still True
at the end of a round and otherwise retries the whole batch after the
sleep. -/
def checkifnewserverisupcommand_loop (rounds : List (List CheckOutcome)) :
    Option (List CheckOutcome) :=
  runWait succeeded_health_up_check rounds

theorem succeeded_health_up_check_eq_all (outcomes : List CheckOutcome) :
    succeeded_health_up_check outcomes
      = outcomes.all (fun o =>
          match o with
          | CheckOutcome.resolved retval => retval == 0
          | CheckOutcome.describeRaised => true) := by
  unfold succeeded_health_up_check
  suffices h : ∀ (c : Bool),
      outcomes.foldl
        (fun succeeded o =>
          match o with
          | CheckOutcome.resolved retval => if retval != 0 then false else succeeded
          | CheckOutcome.describeRaised => succeeded) c
        = (c && outcomes.all (fun o =>
            match o with
            | CheckOutcome.resolved retval => retval == 0
            | CheckOutcome.describeRaised => true)) by
    simpa using h true
  induction outcomes with
  | nil => intro c; simp
  | cons o os ih =>
      intro c
      simp only [List.foldl_cons, List.all_cons, ih]
      cases o with
      | describeRaised => simp [Bool.and_assoc]
      | resolved retval =>
          by_cases hr : retval = 0
          · subst hr
            simp [Bool.and_assoc]
          · have hb : (retval != 0) = true := by simpa using hr
            have hb2 : (retval == 0) = false := by simpa using hr
            simp [hb, hb2]

/-- C3 counterexample: a batch consisting of one new instance whose detail
resolution raises makes the up-check loop return at the very first round,
although no invocation in that batch exited 0 and no retry happens; the
caught exception is only logged and does not count as a failed check. -/
theorem upcheck_describe_failure_not_counted :
    checkifnewserverisupcommand_loop [[CheckOutcome.describeRaised]]
      = some [CheckOutcome.describeRaised] ∧
    succeeded_health_up_check [CheckOutcome.describeRaised] = true ∧
    (∀ o ∈ [CheckOutcome.describeRaised], o ≠ CheckOutcome.resolved 0) := by
  refine ⟨by decide, by decide, ?_⟩
  intro o ho
  simp only [List.mem_singleton] at ho
  subst ho
  intro hcontra
  cases hcontra

/-- C3 amended: the up-check loop returns only at a round in which every
instance whose detail was resolved had its invocation exit 0; an exception
while resolving an instance detail is caught and logged but does not count
as a failed check for that instance (the instance is effectively skipped
for the round), while a resolved invocation exiting nonzero makes the whole
batch retry at the next round rather than aborting the run. -/
theorem upcheck_loop_returns_only_resolved_zero
    (rounds : List (List CheckOutcome)) (r : List CheckOutcome)
    (h : checkifnewserverisupcommand_loop rounds = some r) :
    (∀ o ∈ r, ∀ retval, o = CheckOutcome.resolved retval → retval = 0) ∧ r ∈ rounds := by
  rcases runWait_eq_some _ _ _ h with ⟨hb, hmem⟩
  refine ⟨?_, hmem⟩
  rw [succeeded_health_up_check_eq_all] at hb
  intro o ho retval hor
  have := List.all_eq_true.mp hb o ho
  subst hor
  simpa using this

theorem upcheck_loop_returns_only_resolved_zero_witness :
    (∀ o ∈ [CheckOutcome.resolved 0], ∀ retval,
        o = CheckOutcome.resolved retval → retval = 0) ∧
    [CheckOutcome.resolved 0] ∈ [[CheckOutcome.resolved 0]] :=
  upcheck_loop_returns_only_resolved_zero [[CheckOutcome.resolved 0]]
    [CheckOutcome.resolved 0] (by decide)

/-! ### The top-level script run

The core application logic (the module-level code after the helper
definitions) is modelled as a function from its inputs to the ordered list
of mutating API calls it issues and the process exit code.  Read-only
queries, sleeps, polling waits (assumed to return) and external hook
invocations issue no events; an uncaught Python exception terminates the
process with exit code 1, as does exit(1). -/

/-- A Python-level function result: a normal return value or an uncaught
exception. -/
inductive PyResult (α : Type) where
  | ret (value : α)
  | raised (message : String)
deriving DecidableEq

/-- deregister_instance_from_load_balancer, keyed by the HTTPStatusCode of
the response: 200 returns True, anything else logs the failure and returns
False. -/
def deregister_instance_from_load_balancer (httpStatusCode : Nat) : PyResult Bool :=
  if httpStatusCode == 200 then PyResult.ret true
  else PyResult.ret false

/-- deregister_instance_from_target_group, keyed by the HTTPStatusCode of
the response: 200 returns True; on any other status the error-log line
interpolates the name loadbalancer_name, which is bound neither in the
function nor at module scope, so evaluating it raises an uncaught NameError
before the return False statement is reached. -/
def deregister_instance_from_target_group (httpStatusCode : Nat) : PyResult Bool :=
  if httpStatusCode == 200 then PyResult.ret true
  else PyResult.raised "NameError: name loadbalancer_name is not defined"

/-- A mutating API call issued by the script. -/
inductive Event where
  | updateMaxSize (asgName : String) (value : Nat)
  | setDesiredCapacity (asgName : String) (value : Nat)
  | suspendProcesses (asgName : String) (processes : List String)
  | resumeProcesses (asgName : String) (processes : List String)
  | resumeAllProcesses (asgName : String)
  | deregisterFromLoadBalancer (instanceId : String) (lbName : String)
  | deregisterFromTargetGroup (instanceId : String) (tgArn : String)
  | terminateInstance (instanceId : String) (decrementCapacity : Bool)
deriving DecidableEq

/-- The environment of one run: which mutating calls report success and
which describe_instance lookups find their instance.  Suspend, resume and
load-balancer deregistration outcomes are not tracked because the script
logs their failure and continues either way. -/
structure MutEnv where
  updateMaxSizeOk : Nat → Bool
  setDesiredCapacityOk : Nat → Bool
  deregisterTargetGroupOk : String → String → Bool
  terminateOk : String → Bool
  describeInstanceFound : String → Bool

/-- Result of a run: the mutating calls issued, in order, and the process
exit code. -/
structure RunResult where
  trace : List Event
  exitCode : Nat
deriving DecidableEq

/-- The processes that must not be suspended (non-force mode). -/
def required_processes : List String :=
  ["Terminate", "Launch", "HealthCheck", "AddToLoadBalancer"]

/-- The processes the script suspends for the duration of the rollout. -/
def suspend_new_processes : List String :=
  ["ScheduledActions", "AlarmNotification", "AZRebalance"]

/-- get_instances_to_skip: the instances whose resolved configuration
matches the resolved configuration of the autoscaling group. -/
def get_instances_to_skip (instances : List InstanceRef) (a : Autoscaler) : List InstanceRef :=
  instances.filter (fun i => a.launchConfigurationName == i.launchConfigurationName)

/-- instances_to_kill as computed at the head of the rollout: the healthy
members of the last fetched descriptor, minus (when the
checkifinstancesneedtobeterminated option is set) each instance to skip,
removed one at a time as the Python list.remove call does. -/
def instancesToKill (opts : CliOptions) (a : Autoscaler) : List InstanceRef :=
  let kills := get_autoscaler_healthy_instances a
  if opts.checkifinstancesneedtobeterminated then
    (get_instances_to_skip kills a).foldl (fun acc s => acc.erase s) kills
  else kills

/-- The per-retiree target-group deregistration sequence: each call is
issued in order; the Bool is true when a non-200 response made
deregister_instance_from_target_group raise the uncaught NameError
described above, which ends the process with exit code 1. -/
def deregister_retiree_from_target_groups (env : MutEnv) (iid : String) :
    List String → List Event × Bool
  | [] => ([], false)
  | tg :: rest =>
    if env.deregisterTargetGroupOk iid tg then
      ((Event.deregisterFromTargetGroup iid tg)
          :: (deregister_retiree_from_target_groups env iid rest).1,
        (deregister_retiree_from_target_groups env iid rest).2)
    else
      ([Event.deregisterFromTargetGroup iid tg], true)

/-- The retire loop over instances_to_kill: per retiree it resolves the
instance detail (a raised describe_instance exception is uncaught and
aborts the run), waits for healthy capacity and replacements (read-only),
issues the load-balancer deregistrations (failures logged, run continues)
and the target-group deregistrations, awaits detachment (read-only), and
terminates the retiree, requesting the desired capacity decrement exactly
when the retiree is the last of the list (i + 1 == len(instances_to_kill));
a non-200 termination response is exit(1).  Returns the issued events, an
abort exit code if the process died inside the loop, and the final value of
the downscaled flag. -/
def retireLoop (env : MutEnv) (asg : Autoscaler) :
    List InstanceRef → List Event × Option Nat × Bool
  | [] => ([], none, false)
  | inst :: rest =>
    if env.describeInstanceFound inst.instanceId then
      if (deregister_retiree_from_target_groups env inst.instanceId asg.targetGroupARNs).2 then
        (asg.loadBalancerNames.map
            (fun n => Event.deregisterFromLoadBalancer inst.instanceId n)
          ++ (deregister_retiree_from_target_groups env inst.instanceId asg.targetGroupARNs).1,
          some 1, false)
      else if env.terminateOk inst.instanceId then
        if rest.isEmpty then
          (asg.loadBalancerNames.map
              (fun n => Event.deregisterFromLoadBalancer inst.instanceId n)
            ++ (deregister_retiree_from_target_groups env inst.instanceId asg.targetGroupARNs).1
            ++ [Event.terminateInstance inst.instanceId rest.isEmpty],
            none, true)
        else
          (asg.loadBalancerNames.map
              (fun n => Event.deregisterFromLoadBalancer inst.instanceId n)
            ++ (deregister_retiree_from_target_groups env inst.instanceId asg.targetGroupARNs).1
            ++ (Event.terminateInstance inst.instanceId rest.isEmpty)
                :: (retireLoop env asg rest).1,
            (retireLoop env asg rest).2.1, (retireLoop env asg rest).2.2)
      else
        (asg.loadBalancerNames.map
            (fun n => Event.deregisterFromLoadBalancer inst.instanceId n)
          ++ (deregister_retiree_from_target_groups env inst.instanceId asg.targetGroupARNs).1
          ++ [Event.terminateInstance inst.instanceId rest.isEmpty],
          some 1, false)
    else
      ([], some 1, false)

/-- The max-size bump issued when the old max size equals the old desired
capacity. -/
def maxBumpEvents (opts : CliOptions) (asg0 : Autoscaler) : List Event :=
  if asg0.maxSize == asg0.desiredCapacity
  then [Event.updateMaxSize opts.autoscaler (asg0.maxSize + 1)] else []

/-- Under force mode all processes are resumed up front. -/
def forceResumeEvents (opts : CliOptions) : List Event :=
  if opts.force then [Event.resumeAllProcesses opts.autoscaler] else []

/-- Non-force mode refuses to run when a required process is suspended. -/
def requiredProcessSuspended (asg0 : Autoscaler) : Bool :=
  required_processes.any (fun p => (get_suspended_processes asg0).contains p)

/-- The desired-capacity increase by one, issued only when there is at
least one instance to kill. -/
def desiredBumpEvents (opts : CliOptions) (asg2 : Autoscaler)
    (kills : List InstanceRef) : List Event :=
  if kills.length > 0
  then [Event.setDesiredCapacity opts.autoscaler (asg2.desiredCapacity + 1)] else []

/-- All mutating calls issued before the retire loop, in order. -/
def preLoopTrace (opts : CliOptions) (asg0 asg2 : Autoscaler) : List Event :=
  maxBumpEvents opts asg0 ++ forceResumeEvents opts
    ++ [Event.suspendProcesses opts.autoscaler suspend_new_processes]
    ++ desiredBumpEvents opts asg2 (instancesToKill opts asg2)

/-- The compensating set_desired_capacity issued when the loop never
downscaled. -/
def compensateEvents (opts : CliOptions) (oldDesired : Nat) (downscaled : Bool) : List Event :=
  if downscaled then [] else [Event.setDesiredCapacity opts.autoscaler oldDesired]

/-- The resume call after the loop: all processes under force, otherwise
the suspended set. -/
def resumeEvent (opts : CliOptions) : Event :=
  if opts.force then Event.resumeAllProcesses opts.autoscaler
  else Event.resumeProcesses opts.autoscaler suspend_new_processes

/-- The max-size restore, issued under the same condition as the bump. -/
def maxRestoreEvents (opts : CliOptions) (asg0 : Autoscaler) : List Event :=
  if asg0.maxSize == asg0.desiredCapacity
  then [Event.updateMaxSize opts.autoscaler asg0.maxSize] else []

/-- The whole script run.  lookup is the initial get_autoscaling_group
result (none when no group matches and the raised exception ends the
process before any mutating call); asg1 is the descriptor of the re-fetch
before the baseline wait (consulted only by read-only waits); asg2 is the
descriptor of the final re-fetch that the rollout loop works from; env
fixes the outcome of every mutating call. -/
def mainRun (opts : CliOptions) (lookup : Option Autoscaler)
    (asg1 asg2 : Autoscaler) (env : MutEnv) : RunResult :=
  match lookup with
  | none => ⟨[], 1⟩
  | some asg0 =>
    if asg0.maxSize == asg0.desiredCapacity && !(env.updateMaxSizeOk (asg0.maxSize + 1)) then
      ⟨maxBumpEvents opts asg0, 1⟩
    else if !opts.force && requiredProcessSuspended asg0 then
      ⟨maxBumpEvents opts asg0 ++ forceResumeEvents opts, 1⟩
    else if (instancesToKill opts asg2).length > 0
        && !(env.setDesiredCapacityOk (asg2.desiredCapacity + 1)) then
      ⟨preLoopTrace opts asg0 asg2, 1⟩
    else if (retireLoop env asg2 (instancesToKill opts asg2)).2.1.isSome then
      ⟨preLoopTrace opts asg0 asg2 ++ (retireLoop env asg2 (instancesToKill opts asg2)).1,
        (retireLoop env asg2 (instancesToKill opts asg2)).2.1.getD 1⟩
    else if !(retireLoop env asg2 (instancesToKill opts asg2)).2.2
        && !(env.setDesiredCapacityOk asg0.desiredCapacity) then
      ⟨preLoopTrace opts asg0 asg2 ++ (retireLoop env asg2 (instancesToKill opts asg2)).1
        ++ compensateEvents opts asg0.desiredCapacity
            (retireLoop env asg2 (instancesToKill opts asg2)).2.2, 1⟩
    else if asg0.maxSize == asg0.desiredCapacity
        && !(env.updateMaxSizeOk asg0.maxSize) then
      ⟨preLoopTrace opts asg0 asg2 ++ (retireLoop env asg2 (instancesToKill opts asg2)).1
        ++ compensateEvents opts asg0.desiredCapacity
            (retireLoop env asg2 (instancesToKill opts asg2)).2.2
        ++ [resumeEvent opts] ++ maxRestoreEvents opts asg0, 1⟩
    else
      ⟨preLoopTrace opts asg0 asg2 ++ (retireLoop env asg2 (instancesToKill opts asg2)).1
        ++ compensateEvents opts asg0.desiredCapacity
            (retireLoop env asg2 (instancesToKill opts asg2)).2.2
        ++ [resumeEvent opts] ++ maxRestoreEvents opts asg0, 0⟩

/-- The desired capacity after applying the desired-capacity-affecting
calls of a trace in order, assuming each call took effect: a
set_desired_capacity call sets it and a termination carrying the decrement
flag lowers it by one. -/
def finalDesired (start : Nat) : List Event → Nat
  | [] => start
  | e :: rest =>
    match e with
    | Event.setDesiredCapacity _ v => finalDesired v rest
    | Event.terminateInstance _ true => finalDesired (start - 1) rest
    | _ => finalDesired start rest

/-- The max size after applying the update_auto_scaling_group_max_size
calls of a trace in order. -/
def finalMaxSize (start : Nat) : List Event → Nat
  | [] => start
  | e :: rest =>
    match e with
    | Event.updateMaxSize _ v => finalMaxSize v rest
    | _ => finalMaxSize start rest

/-- The termination calls of a trace: instance id and decrement flag, in
order of issue. -/
def terminationCalls (trace : List Event) : List (String × Bool) :=
  trace.filterMap (fun e =>
    match e with
    | Event.terminateInstance iid b => some (iid, b)
    | _ => none)

/-- The update_auto_scaling_group_max_size calls of a trace. -/
def maxSizeCalls (trace : List Event) : List (String × Nat) :=
  trace.filterMap (fun e =>
    match e with
    | Event.updateMaxSize n v => some (n, v)
    | _ => none)

/-- The set_desired_capacity calls of a trace. -/
def desiredSetCalls (trace : List Event) : List (String × Nat) :=
  trace.filterMap (fun e =>
    match e with
    | Event.setDesiredCapacity n v => some (n, v)
    | _ => none)

section TraceLemmas

theorem terminationCalls_append (a b : List Event) :
    terminationCalls (a ++ b) = terminationCalls a ++ terminationCalls b := by
  simp [terminationCalls]

theorem maxSizeCalls_append (a b : List Event) :
    maxSizeCalls (a ++ b) = maxSizeCalls a ++ maxSizeCalls b := by
  simp [maxSizeCalls]

theorem desiredSetCalls_append (a b : List Event) :
    desiredSetCalls (a ++ b) = desiredSetCalls a ++ desiredSetCalls b := by
  simp [desiredSetCalls]

theorem terminationCalls_lb_deregs (iid : String) (lbs : List String) :
    terminationCalls (lbs.map (fun n => Event.deregisterFromLoadBalancer iid n)) = [] := by
  induction lbs with
  | nil => rfl
  | cons n ns ih => simpa [terminationCalls, List.filterMap_cons] using ih

theorem terminationCalls_tg_deregs (env : MutEnv) (iid : String) (tgs : List String) :
    terminationCalls (deregister_retiree_from_target_groups env iid tgs).1 = [] := by
  induction tgs with
  | nil => rfl
  | cons tg rest ih =>
      unfold deregister_retiree_from_target_groups
      by_cases h : env.deregisterTargetGroupOk iid tg
      · rw [if_pos h]
        simpa [terminationCalls, List.filterMap_cons] using ih
      · rw [if_neg h]
        rfl

theorem maxSizeCalls_lb_deregs (iid : String) (lbs : List String) :
    maxSizeCalls (lbs.map (fun n => Event.deregisterFromLoadBalancer iid n)) = [] := by
  induction lbs with
  | nil => rfl
  | cons n ns ih => simpa [maxSizeCalls, List.filterMap_cons] using ih

theorem maxSizeCalls_tg_deregs (env : MutEnv) (iid : String) (tgs : List String) :
    maxSizeCalls (deregister_retiree_from_target_groups env iid tgs).1 = [] := by
  induction tgs with
  | nil => rfl
  | cons tg rest ih =>
      unfold deregister_retiree_from_target_groups
      by_cases h : env.deregisterTargetGroupOk iid tg
      · rw [if_pos h]
        simpa [maxSizeCalls, List.filterMap_cons] using ih
      · rw [if_neg h]
        rfl

theorem maxSizeCalls_cons_terminate (iid : String) (b : Bool) (l : List Event) :
    maxSizeCalls ((Event.terminateInstance iid b) :: l) = maxSizeCalls l := rfl

theorem maxSizeCalls_retireLoop (env : MutEnv) (asg : Autoscaler)
    (kills : List InstanceRef) :
    maxSizeCalls (retireLoop env asg kills).1 = [] := by
  induction kills with
  | nil => rfl
  | cons inst rest ih =>
      unfold retireLoop
      by_cases hd : env.describeInstanceFound inst.instanceId
      · rw [if_pos hd]
        by_cases htg :
            (deregister_retiree_from_target_groups env inst.instanceId asg.targetGroupARNs).2
        · rw [if_pos htg]
          dsimp only
          rw [maxSizeCalls_append, maxSizeCalls_lb_deregs, maxSizeCalls_tg_deregs]
          rfl
        · rw [if_neg htg]
          by_cases hterm : env.terminateOk inst.instanceId
          · rw [if_pos hterm]
            by_cases hrest : rest.isEmpty
            · rw [if_pos hrest]
              dsimp only
              rw [maxSizeCalls_append, maxSizeCalls_append, maxSizeCalls_lb_deregs,
                maxSizeCalls_tg_deregs, maxSizeCalls_cons_terminate]
              rfl
            · rw [if_neg hrest]
              dsimp only
              rw [maxSizeCalls_append, maxSizeCalls_append, maxSizeCalls_lb_deregs,
                maxSizeCalls_tg_deregs, maxSizeCalls_cons_terminate, ih]
              rfl
          · rw [if_neg hterm]
            dsimp only
            rw [maxSizeCalls_append, maxSizeCalls_append, maxSizeCalls_lb_deregs,
              maxSizeCalls_tg_deregs, maxSizeCalls_cons_terminate]
            rfl
      · rw [if_neg hd]
        rfl

end TraceLemmas

/-- The termination-call sequence expected for a retiree list: each
instance in order, the decrement flag exactly on the last. -/
def killsCalls : List InstanceRef → List (String × Bool)
  | [] => []
  | i :: rest => (i.instanceId, rest.isEmpty) :: killsCalls rest

theorem terminationCalls_cons_terminate (iid : String) (b : Bool) (l : List Event) :
    terminationCalls ((Event.terminateInstance iid b) :: l)
      = (iid, b) :: terminationCalls l := rfl

theorem retireLoop_abort_code (env : MutEnv) (asg : Autoscaler)
    (kills : List InstanceRef) :
    (retireLoop env asg kills).2.1 = none ∨ (retireLoop env asg kills).2.1 = some 1 := by
  induction kills with
  | nil => exact Or.inl rfl
  | cons inst rest ih =>
      unfold retireLoop
      by_cases hd : env.describeInstanceFound inst.instanceId
      · rw [if_pos hd]
        by_cases htg :
            (deregister_retiree_from_target_groups env inst.instanceId asg.targetGroupARNs).2
        · rw [if_pos htg]
          exact Or.inr rfl
        · rw [if_neg htg]
          by_cases hterm : env.terminateOk inst.instanceId
          · rw [if_pos hterm]
            by_cases hrest : rest.isEmpty
            · rw [if_pos hrest]
              exact Or.inl rfl
            · rw [if_neg hrest]
              exact ih
          · rw [if_neg hterm]
            exact Or.inr rfl
      · rw [if_neg hd]
        exact Or.inr rfl

theorem retireLoop_termination_calls (env : MutEnv) (asg : Autoscaler)
    (kills : List InstanceRef) (h : (retireLoop env asg kills).2.1 = none) :
    terminationCalls (retireLoop env asg kills).1 = killsCalls kills := by
  induction kills with
  | nil => rfl
  | cons inst rest ih =>
      unfold retireLoop at h ⊢
      by_cases hd : env.describeInstanceFound inst.instanceId
      · rw [if_pos hd] at h ⊢
        by_cases htg :
            (deregister_retiree_from_target_groups env inst.instanceId asg.targetGroupARNs).2
        · rw [if_pos htg] at h
          simp at h
        · rw [if_neg htg] at h ⊢
          by_cases hterm : env.terminateOk inst.instanceId
          · rw [if_pos hterm] at h ⊢
            by_cases hrest : rest.isEmpty
            · rw [if_pos hrest] at h ⊢
              have hre : rest = [] := List.isEmpty_iff.mp hrest
              subst hre
              dsimp only
              rw [terminationCalls_append, terminationCalls_append,
                terminationCalls_lb_deregs, terminationCalls_tg_deregs,
                terminationCalls_cons_terminate]
              rfl
            · rw [if_neg hrest] at h ⊢
              dsimp only at h ⊢
              rw [terminationCalls_append, terminationCalls_append,
                terminationCalls_lb_deregs, terminationCalls_tg_deregs,
                terminationCalls_cons_terminate, ih h]
              rfl
          · rw [if_neg hterm] at h
            simp at h
      · rw [if_neg hd] at h
        simp at h

theorem killsCalls_map_fst (l : List InstanceRef) :
    (killsCalls l).map Prod.fst = l.map InstanceRef.instanceId := by
  induction l with
  | nil => rfl
  | cons i rest ih => simp [killsCalls, ih]

theorem killsCalls_map_snd (l : List InstanceRef) (h : l ≠ []) :
    (killsCalls l).map Prod.snd = List.replicate (l.length - 1) false ++ [true] := by
  induction l with
  | nil => exact absurd rfl h
  | cons i rest ih =>
      cases rest with
      | nil => rfl
      | cons j tl =>
          have hr := ih (by simp)
          rw [show killsCalls (i :: j :: tl)
              = (i.instanceId, false) :: killsCalls (j :: tl) from rfl]
          rw [List.map_cons, hr]
          simp [List.replicate_succ]

section PieceLemmas

theorem terminationCalls_maxBumpEvents (opts : CliOptions) (asg0 : Autoscaler) :
    terminationCalls (maxBumpEvents opts asg0) = [] := by
  unfold maxBumpEvents; split <;> rfl

theorem terminationCalls_forceResumeEvents (opts : CliOptions) :
    terminationCalls (forceResumeEvents opts) = [] := by
  unfold forceResumeEvents; split <;> rfl

theorem terminationCalls_desiredBumpEvents (opts : CliOptions) (asg2 : Autoscaler)
    (kills : List InstanceRef) :
    terminationCalls (desiredBumpEvents opts asg2 kills) = [] := by
  unfold desiredBumpEvents; split <;> rfl

theorem terminationCalls_preLoopTrace (opts : CliOptions) (asg0 asg2 : Autoscaler) :
    terminationCalls (preLoopTrace opts asg0 asg2) = [] := by
  unfold preLoopTrace
  rw [terminationCalls_append, terminationCalls_append, terminationCalls_append,
    terminationCalls_maxBumpEvents, terminationCalls_forceResumeEvents,
    terminationCalls_desiredBumpEvents]
  rfl

theorem terminationCalls_compensateEvents (opts : CliOptions) (d : Nat) (b : Bool) :
    terminationCalls (compensateEvents opts d b) = [] := by
  unfold compensateEvents; split <;> rfl

theorem terminationCalls_resumeEvent (opts : CliOptions) :
    terminationCalls [resumeEvent opts] = [] := by
  unfold resumeEvent; split <;> rfl

theorem terminationCalls_maxRestoreEvents (opts : CliOptions) (asg0 : Autoscaler) :
    terminationCalls (maxRestoreEvents opts asg0) = [] := by
  unfold maxRestoreEvents; split <;> rfl

theorem maxSizeCalls_maxBumpEvents (opts : CliOptions) (asg0 : Autoscaler) :
    maxSizeCalls (maxBumpEvents opts asg0)
      = if asg0.maxSize == asg0.desiredCapacity
        then [(opts.autoscaler, asg0.maxSize + 1)] else [] := by
  unfold maxBumpEvents; split <;> rfl

theorem maxSizeCalls_forceResumeEvents (opts : CliOptions) :
    maxSizeCalls (forceResumeEvents opts) = [] := by
  unfold forceResumeEvents; split <;> rfl

theorem maxSizeCalls_desiredBumpEvents (opts : CliOptions) (asg2 : Autoscaler)
    (kills : List InstanceRef) :
    maxSizeCalls (desiredBumpEvents opts asg2 kills) = [] := by
  unfold desiredBumpEvents; split <;> rfl

theorem maxSizeCalls_preLoopTrace (opts : CliOptions) (asg0 asg2 : Autoscaler) :
    maxSizeCalls (preLoopTrace opts asg0 asg2)
      = if asg0.maxSize == asg0.desiredCapacity
        then [(opts.autoscaler, asg0.maxSize + 1)] else [] := by
  unfold preLoopTrace
  rw [maxSizeCalls_append, maxSizeCalls_append, maxSizeCalls_append,
    maxSizeCalls_maxBumpEvents, maxSizeCalls_forceResumeEvents,
    maxSizeCalls_desiredBumpEvents]
  split <;> rfl

theorem maxSizeCalls_compensateEvents (opts : CliOptions) (d : Nat) (b : Bool) :
    maxSizeCalls (compensateEvents opts d b) = [] := by
  unfold compensateEvents; split <;> rfl

theorem maxSizeCalls_resumeEvent (opts : CliOptions) :
    maxSizeCalls [resumeEvent opts] = [] := by
  unfold resumeEvent; split <;> rfl

theorem maxSizeCalls_maxRestoreEvents (opts : CliOptions) (asg0 : Autoscaler) :
    maxSizeCalls (maxRestoreEvents opts asg0)
      = if asg0.maxSize == asg0.desiredCapacity
        then [(opts.autoscaler, asg0.maxSize)] else [] := by
  unfold maxRestoreEvents; split <;> rfl

theorem desiredSetCalls_maxBumpEvents (opts : CliOptions) (asg0 : Autoscaler) :
    desiredSetCalls (maxBumpEvents opts asg0) = [] := by
  unfold maxBumpEvents; split <;> rfl

theorem desiredSetCalls_forceResumeEvents (opts : CliOptions) :
    desiredSetCalls (forceResumeEvents opts) = [] := by
  unfold forceResumeEvents; split <;> rfl

theorem desiredSetCalls_compensateEvents (opts : CliOptions) (d : Nat) (b : Bool) :
    desiredSetCalls (compensateEvents opts d b)
      = if b then [] else [(opts.autoscaler, d)] := by
  unfold compensateEvents; split <;> rfl

theorem desiredSetCalls_resumeEvent (opts : CliOptions) :
    desiredSetCalls [resumeEvent opts] = [] := by
  unfold resumeEvent; split <;> rfl

theorem desiredSetCalls_maxRestoreEvents (opts : CliOptions) (asg0 : Autoscaler) :
    desiredSetCalls (maxRestoreEvents opts asg0) = [] := by
  unfold maxRestoreEvents; split <;> rfl

end PieceLemmas

theorem mainRun_exit_zero (opts : CliOptions) (asg0 asg1 asg2 : Autoscaler) (env : MutEnv)
    (h : (mainRun opts (some asg0) asg1 asg2 env).exitCode = 0) :
    (retireLoop env asg2 (instancesToKill opts asg2)).2.1 = none ∧
    (mainRun opts (some asg0) asg1 asg2 env).trace
      = preLoopTrace opts asg0 asg2
        ++ (retireLoop env asg2 (instancesToKill opts asg2)).1
        ++ compensateEvents opts asg0.desiredCapacity
            (retireLoop env asg2 (instancesToKill opts asg2)).2.2
        ++ [resumeEvent opts] ++ maxRestoreEvents opts asg0 ∧
    (asg0.maxSize = asg0.desiredCapacity → env.updateMaxSizeOk asg0.maxSize = true) := by
  unfold mainRun at h ⊢
  dsimp only at h ⊢
  by_cases h1 : asg0.maxSize == asg0.desiredCapacity
      && !(env.updateMaxSizeOk (asg0.maxSize + 1))
  · rw [if_pos h1] at h
    simp at h
  · rw [if_neg h1] at h ⊢
    by_cases h2 : !opts.force && requiredProcessSuspended asg0
    · rw [if_pos h2] at h
      simp at h
    · rw [if_neg h2] at h ⊢
      by_cases h3 : (instancesToKill opts asg2).length > 0
          && !(env.setDesiredCapacityOk (asg2.desiredCapacity + 1))
      · rw [if_pos h3] at h
        simp at h
      · rw [if_neg h3] at h ⊢
        by_cases h4 : (retireLoop env asg2 (instancesToKill opts asg2)).2.1.isSome
        · rw [if_pos h4] at h
          rcases retireLoop_abort_code env asg2 (instancesToKill opts asg2) with hc | hc
          · rw [hc] at h4
            simp at h4
          · rw [hc] at h
            simp at h
        · rw [if_neg h4] at h ⊢
          have hnone : (retireLoop env asg2 (instancesToKill opts asg2)).2.1 = none :=
            Option.not_isSome_iff_eq_none.mp h4
          by_cases h5 : !(retireLoop env asg2 (instancesToKill opts asg2)).2.2
              && !(env.setDesiredCapacityOk asg0.desiredCapacity)
          · rw [if_pos h5] at h
            simp at h
          · rw [if_neg h5] at h ⊢
            by_cases h6 : asg0.maxSize == asg0.desiredCapacity
                && !(env.updateMaxSizeOk asg0.maxSize)
            · rw [if_pos h6] at h
              simp at h
            · rw [if_neg h6] at h ⊢
              refine ⟨hnone, rfl, ?_⟩
              intro hbump
              have hbeq : (asg0.maxSize == asg0.desiredCapacity) = true :=
                beq_iff_eq.mpr hbump
              simp [hbeq] at h6
              exact h6

/-- C1: in every run that exits 0 and whose computed retiree list is
nonempty, the termination calls issued are exactly one per retiree, in list
order, and the desired-capacity-decrement flag is false on every call but
the last and true on the last one. -/
theorem rollout_decrements_capacity_only_on_last_termination
    (opts : CliOptions) (asg0 asg1 asg2 : Autoscaler) (env : MutEnv)
    (h0 : (mainRun opts (some asg0) asg1 asg2 env).exitCode = 0)
    (h1 : instancesToKill opts asg2 ≠ []) :
    (terminationCalls (mainRun opts (some asg0) asg1 asg2 env).trace).map Prod.fst
        = (instancesToKill opts asg2).map InstanceRef.instanceId ∧
    (terminationCalls (mainRun opts (some asg0) asg1 asg2 env).trace).map Prod.snd
        = List.replicate ((instancesToKill opts asg2).length - 1) false ++ [true] := by
  rcases mainRun_exit_zero opts asg0 asg1 asg2 env h0 with ⟨hnone, htrace, _⟩
  rw [htrace]
  rw [terminationCalls_append, terminationCalls_append, terminationCalls_append,
    terminationCalls_append, terminationCalls_preLoopTrace,
    retireLoop_termination_calls env asg2 _ hnone,
    terminationCalls_compensateEvents, terminationCalls_resumeEvent,
    terminationCalls_maxRestoreEvents]
  simp only [List.nil_append, List.append_nil]
  exact ⟨killsCalls_map_fst _, killsCalls_map_snd _ h1⟩

/-- CLI options used by the concrete run witnesses. -/
def witnessOpts : CliOptions :=
  { autoscaler := "web"
    force := false
    skip := false
    waitforseconds := 0
    checkifnewserverisupcommand := ""
    runbeforeserverdowncommand := ""
    runafterserverdowncommand := ""
    checkifinstancesneedtobeterminated := false }

/-- An environment in which every mutating call reports success. -/
def witnessEnvOk : MutEnv :=
  { updateMaxSizeOk := fun _ => true
    setDesiredCapacityOk := fun _ => true
    deregisterTargetGroupOk := fun _ _ => true
    terminateOk := fun _ => true
    describeInstanceFound := fun _ => true }

theorem rollout_decrements_capacity_only_on_last_termination_witness :
    (terminationCalls
        (mainRun witnessOpts (some witnessAsg) witnessAsg witnessAsg witnessEnvOk).trace).map
          Prod.fst
        = (instancesToKill witnessOpts witnessAsg).map InstanceRef.instanceId ∧
    (terminationCalls
        (mainRun witnessOpts (some witnessAsg) witnessAsg witnessAsg witnessEnvOk).trace).map
          Prod.snd
        = List.replicate ((instancesToKill witnessOpts witnessAsg).length - 1) false
            ++ [true] :=
  rollout_decrements_capacity_only_on_last_termination witnessOpts witnessAsg witnessAsg
    witnessAsg witnessEnvOk (by decide) (by decide)

/-- C9: when the initial fleet lookup finds no autoscaling group with the
given name, the raised exception terminates the process with exit code 1
before any mutating call is issued: the run trace is empty. -/
theorem missing_autoscaler_exits_one_without_mutations
    (opts : CliOptions) (asg1 asg2 : Autoscaler) (env : MutEnv) :
    mainRun opts none asg1 asg2 env = ⟨[], 1⟩ := rfl

/-- An environment in which the target-group deregistration response is not
a success. -/
def witnessEnvTgFail : MutEnv :=
  { witnessEnvOk with deregisterTargetGroupOk := fun _ _ => false }

/-- C4 (code bug): deregistration is best-effort only for classic load
balancers; for a target group a non-success response makes
deregister_instance_from_target_group raise an uncaught NameError (its
error-log line references the undefined name loadbalancer_name, so the
return False statement is unreachable), and the run aborts instead of
continuing to the drain wait: in a concrete run whose only target-group
deregistration returns a non-200 response, the process exits 1 and the
retiree is never terminated. -/
theorem target_group_deregistration_failure_aborts_run :
    deregister_instance_from_load_balancer 500 = PyResult.ret false ∧
    deregister_instance_from_target_group 500
      = PyResult.raised "NameError: name loadbalancer_name is not defined" ∧
    (mainRun witnessOpts (some witnessAsg) witnessAsg witnessAsg witnessEnvTgFail).exitCode
      = 1 ∧
    terminationCalls
      (mainRun witnessOpts (some witnessAsg) witnessAsg witnessAsg witnessEnvTgFail).trace
      = [] := by
  refine ⟨rfl, rfl, by decide, by decide⟩

theorem mem_maxSizeCalls (trace : List Event) (n : String) (v : Nat) :
    (n, v) ∈ maxSizeCalls trace ↔ Event.updateMaxSize n v ∈ trace := by
  unfold maxSizeCalls
  rw [List.mem_filterMap]
  constructor
  · rintro ⟨e, he, hfe⟩
    cases e with
    | updateMaxSize n2 v2 =>
        simp only [Option.some.injEq, Prod.mk.injEq] at hfe
        rcases hfe with ⟨rfl, rfl⟩
        exact he
    | setDesiredCapacity n2 v2 => simp at hfe
    | suspendProcesses n2 ps => simp at hfe
    | resumeProcesses n2 ps => simp at hfe
    | resumeAllProcesses n2 => simp at hfe
    | deregisterFromLoadBalancer a b => simp at hfe
    | deregisterFromTargetGroup a b => simp at hfe
    | terminateInstance a b => simp at hfe
  · intro he
    exact ⟨Event.updateMaxSize n v, he, rfl⟩

theorem finalMaxSize_append (s : Nat) (a b : List Event) :
    finalMaxSize s (a ++ b) = finalMaxSize (finalMaxSize s a) b := by
  induction a generalizing s with
  | nil => rfl
  | cons e rest ih =>
      cases e <;> simp [finalMaxSize, ih]

theorem finalMaxSize_of_no_calls (s : Nat) (l : List Event)
    (h : maxSizeCalls l = []) : finalMaxSize s l = s := by
  induction l generalizing s with
  | nil => rfl
  | cons e rest ih =>
      cases e with
      | updateMaxSize n v => simp [maxSizeCalls, List.filterMap_cons] at h
      | setDesiredCapacity n v =>
          have h2 : maxSizeCalls rest = [] := by
            simpa [maxSizeCalls, List.filterMap_cons] using h
          simp [finalMaxSize, ih _ h2]
      | suspendProcesses n ps =>
          have h2 : maxSizeCalls rest = [] := by
            simpa [maxSizeCalls, List.filterMap_cons] using h
          simp [finalMaxSize, ih _ h2]
      | resumeProcesses n ps =>
          have h2 : maxSizeCalls rest = [] := by
            simpa [maxSizeCalls, List.filterMap_cons] using h
          simp [finalMaxSize, ih _ h2]
      | resumeAllProcesses n =>
          have h2 : maxSizeCalls rest = [] := by
            simpa [maxSizeCalls, List.filterMap_cons] using h
          simp [finalMaxSize, ih _ h2]
      | deregisterFromLoadBalancer a b =>
          have h2 : maxSizeCalls rest = [] := by
            simpa [maxSizeCalls, List.filterMap_cons] using h
          simp [finalMaxSize, ih _ h2]
      | deregisterFromTargetGroup a b =>
          have h2 : maxSizeCalls rest = [] := by
            simpa [maxSizeCalls, List.filterMap_cons] using h
          simp [finalMaxSize, ih _ h2]
      | terminateInstance a b =>
          have h2 : maxSizeCalls rest = [] := by
            simpa [maxSizeCalls, List.filterMap_cons] using h
          cases b <;> simp [finalMaxSize, ih _ h2]

theorem finalMaxSize_maxBumpEvents (opts : CliOptions) (asg0 : Autoscaler) (s : Nat) :
    finalMaxSize s (maxBumpEvents opts asg0)
      = if asg0.maxSize == asg0.desiredCapacity then asg0.maxSize + 1 else s := by
  unfold maxBumpEvents; split <;> rfl

theorem finalMaxSize_maxRestoreEvents (opts : CliOptions) (asg0 : Autoscaler) (s : Nat) :
    finalMaxSize s (maxRestoreEvents opts asg0)
      = if asg0.maxSize == asg0.desiredCapacity then asg0.maxSize else s := by
  unfold maxRestoreEvents; split <;> rfl

theorem finalMaxSize_preLoopTrace (opts : CliOptions) (asg0 asg2 : Autoscaler) (s : Nat) :
    finalMaxSize s (preLoopTrace opts asg0 asg2)
      = if asg0.maxSize == asg0.desiredCapacity then asg0.maxSize + 1 else s := by
  unfold preLoopTrace
  rw [finalMaxSize_append, finalMaxSize_append, finalMaxSize_append,
    finalMaxSize_maxBumpEvents,
    finalMaxSize_of_no_calls _ _ (maxSizeCalls_forceResumeEvents opts),
    show finalMaxSize (if asg0.maxSize == asg0.desiredCapacity
        then asg0.maxSize + 1 else s)
        [Event.suspendProcesses opts.autoscaler suspend_new_processes]
      = (if asg0.maxSize == asg0.desiredCapacity then asg0.maxSize + 1 else s) from rfl,
    finalMaxSize_of_no_calls _ _ (maxSizeCalls_desiredBumpEvents opts asg2 _)]

/-- C5: in every run that exits 0: the updateMaxSize call raising the max
size to one above its old value is issued iff the old desired capacity
equalled the old max size; whenever that bump condition held, the restoring
updateMaxSize call back to the original value is issued and its response
reported success (a failing restore forces a nonzero exit); and the net
effect of all updateMaxSize calls of the run leaves the max size at its
pre-run value. -/
theorem max_size_bumped_iff_and_restored
    (opts : CliOptions) (asg0 asg1 asg2 : Autoscaler) (env : MutEnv)
    (h0 : (mainRun opts (some asg0) asg1 asg2 env).exitCode = 0) :
    (Event.updateMaxSize opts.autoscaler (asg0.maxSize + 1)
        ∈ (mainRun opts (some asg0) asg1 asg2 env).trace
      ↔ asg0.maxSize = asg0.desiredCapacity) ∧
    (asg0.maxSize = asg0.desiredCapacity →
      Event.updateMaxSize opts.autoscaler asg0.maxSize
          ∈ (mainRun opts (some asg0) asg1 asg2 env).trace ∧
        env.updateMaxSizeOk asg0.maxSize = true) ∧
    finalMaxSize asg0.maxSize (mainRun opts (some asg0) asg1 asg2 env).trace
      = asg0.maxSize := by
  rcases mainRun_exit_zero opts asg0 asg1 asg2 env h0 with ⟨hnone, htrace, hok⟩
  have hcalls : maxSizeCalls (mainRun opts (some asg0) asg1 asg2 env).trace
      = (if asg0.maxSize == asg0.desiredCapacity
          then [(opts.autoscaler, asg0.maxSize + 1)] else [])
        ++ (if asg0.maxSize == asg0.desiredCapacity
          then [(opts.autoscaler, asg0.maxSize)] else []) := by
    rw [htrace, maxSizeCalls_append, maxSizeCalls_append, maxSizeCalls_append,
      maxSizeCalls_append, maxSizeCalls_preLoopTrace, maxSizeCalls_retireLoop,
      maxSizeCalls_compensateEvents, maxSizeCalls_resumeEvent,
      maxSizeCalls_maxRestoreEvents]
    simp
  refine ⟨?_, ?_, ?_⟩
  · constructor
    · intro hm
      have hpair := (mem_maxSizeCalls _ _ _).mpr hm
      rw [hcalls] at hpair
      by_cases hbeq : (asg0.maxSize == asg0.desiredCapacity) = true
      · exact beq_iff_eq.mp hbeq
      · rw [if_neg hbeq, if_neg hbeq] at hpair
        simp at hpair
    · intro heq
      have hbeq : (asg0.maxSize == asg0.desiredCapacity) = true := beq_iff_eq.mpr heq
      apply (mem_maxSizeCalls _ _ _).mp
      rw [hcalls, if_pos hbeq, if_pos hbeq]
      simp
  · intro heq
    have hbeq : (asg0.maxSize == asg0.desiredCapacity) = true := beq_iff_eq.mpr heq
    refine ⟨?_, hok heq⟩
    apply (mem_maxSizeCalls _ _ _).mp
    rw [hcalls, if_pos hbeq, if_pos hbeq]
    simp
  · rw [htrace, finalMaxSize_append, finalMaxSize_append, finalMaxSize_append,
      finalMaxSize_append, finalMaxSize_preLoopTrace,
      finalMaxSize_of_no_calls _ _ (maxSizeCalls_retireLoop env asg2 _),
      finalMaxSize_of_no_calls _ _ (maxSizeCalls_compensateEvents opts _ _),
      finalMaxSize_of_no_calls _ _ (maxSizeCalls_resumeEvent opts),
      finalMaxSize_maxRestoreEvents]
    by_cases hbeq : (asg0.maxSize == asg0.desiredCapacity) = true
    · rw [if_pos hbeq]
    · rw [if_neg hbeq, if_neg hbeq]

/-- A fleet at its capacity ceiling (max size equal to desired capacity),
used to witness the bump-and-restore path. -/
def witnessAsgEq : Autoscaler := { witnessAsg with maxSize := 1 }

theorem max_size_bumped_iff_and_restored_witness :
    (Event.updateMaxSize witnessOpts.autoscaler (witnessAsgEq.maxSize + 1)
        ∈ (mainRun witnessOpts (some witnessAsgEq) witnessAsgEq witnessAsgEq
            witnessEnvOk).trace
      ↔ witnessAsgEq.maxSize = witnessAsgEq.desiredCapacity) ∧
    (witnessAsgEq.maxSize = witnessAsgEq.desiredCapacity →
      Event.updateMaxSize witnessOpts.autoscaler witnessAsgEq.maxSize
          ∈ (mainRun witnessOpts (some witnessAsgEq) witnessAsgEq witnessAsgEq
              witnessEnvOk).trace ∧
        witnessEnvOk.updateMaxSizeOk witnessAsgEq.maxSize = true) ∧
    finalMaxSize witnessAsgEq.maxSize
        (mainRun witnessOpts (some witnessAsgEq) witnessAsgEq witnessAsgEq
          witnessEnvOk).trace
      = witnessAsgEq.maxSize :=
  max_size_bumped_iff_and_restored witnessOpts witnessAsgEq witnessAsgEq witnessAsgEq
    witnessEnvOk (by decide)

theorem finalDesired_append (s : Nat) (a b : List Event) :
    finalDesired s (a ++ b) = finalDesired (finalDesired s a) b := by
  induction a generalizing s with
  | nil => rfl
  | cons e rest ih =>
      cases e with
      | updateMaxSize n v => simp [finalDesired, ih]
      | setDesiredCapacity n v => simp [finalDesired, ih]
      | suspendProcesses n ps => simp [finalDesired, ih]
      | resumeProcesses n ps => simp [finalDesired, ih]
      | resumeAllProcesses n => simp [finalDesired, ih]
      | deregisterFromLoadBalancer a b => simp [finalDesired, ih]
      | deregisterFromTargetGroup a b => simp [finalDesired, ih]
      | terminateInstance a b => cases b <;> simp [finalDesired, ih]

theorem finalDesired_of_no_calls (s : Nat) (l : List Event)
    (h1 : desiredSetCalls l = []) (h2 : terminationCalls l = []) :
    finalDesired s l = s := by
  induction l generalizing s with
  | nil => rfl
  | cons e rest ih =>
      cases e with
      | updateMaxSize n v =>
          have g1 : desiredSetCalls rest = [] := by
            simpa [desiredSetCalls, List.filterMap_cons] using h1
          have g2 : terminationCalls rest = [] := by
            simpa [terminationCalls, List.filterMap_cons] using h2
          simp [finalDesired, ih _ g1 g2]
      | setDesiredCapacity n v => simp [desiredSetCalls, List.filterMap_cons] at h1
      | suspendProcesses n ps =>
          have g1 : desiredSetCalls rest = [] := by
            simpa [desiredSetCalls, List.filterMap_cons] using h1
          have g2 : terminationCalls rest = [] := by
            simpa [terminationCalls, List.filterMap_cons] using h2
          simp [finalDesired, ih _ g1 g2]
      | resumeProcesses n ps =>
          have g1 : desiredSetCalls rest = [] := by
            simpa [desiredSetCalls, List.filterMap_cons] using h1
          have g2 : terminationCalls rest = [] := by
            simpa [terminationCalls, List.filterMap_cons] using h2
          simp [finalDesired, ih _ g1 g2]
      | resumeAllProcesses n =>
          have g1 : desiredSetCalls rest = [] := by
            simpa [desiredSetCalls, List.filterMap_cons] using h1
          have g2 : terminationCalls rest = [] := by
            simpa [terminationCalls, List.filterMap_cons] using h2
          simp [finalDesired, ih _ g1 g2]
      | deregisterFromLoadBalancer a b =>
          have g1 : desiredSetCalls rest = [] := by
            simpa [desiredSetCalls, List.filterMap_cons] using h1
          have g2 : terminationCalls rest = [] := by
            simpa [terminationCalls, List.filterMap_cons] using h2
          simp [finalDesired, ih _ g1 g2]
      | deregisterFromTargetGroup a b =>
          have g1 : desiredSetCalls rest = [] := by
            simpa [desiredSetCalls, List.filterMap_cons] using h1
          have g2 : terminationCalls rest = [] := by
            simpa [terminationCalls, List.filterMap_cons] using h2
          simp [finalDesired, ih _ g1 g2]
      | terminateInstance a b => simp [terminationCalls, List.filterMap_cons] at h2

theorem finalDesired_compensateEvents (opts : CliOptions) (d : Nat) (b : Bool) (s : Nat) :
    finalDesired s (compensateEvents opts d b) = if b then s else d := by
  unfold compensateEvents; split <;> rfl

theorem desiredSetCalls_desiredBumpEvents (opts : CliOptions) (asg2 : Autoscaler)
    (kills : List InstanceRef) :
    desiredSetCalls (desiredBumpEvents opts asg2 kills)
      = if kills.length > 0 then [(opts.autoscaler, asg2.desiredCapacity + 1)] else [] := by
  unfold desiredBumpEvents; split
  · rfl
  · rfl

theorem desiredSetCalls_preLoopTrace_empty (opts : CliOptions) (asg0 asg2 : Autoscaler)
    (h : instancesToKill opts asg2 = []) :
    desiredSetCalls (preLoopTrace opts asg0 asg2) = [] := by
  unfold preLoopTrace
  rw [desiredSetCalls_append, desiredSetCalls_append, desiredSetCalls_append,
    desiredSetCalls_maxBumpEvents, desiredSetCalls_forceResumeEvents, h,
    desiredSetCalls_desiredBumpEvents,
    show desiredSetCalls [Event.suspendProcesses opts.autoscaler suspend_new_processes]
      = [] from rfl]
  simp

/-- C6: when the computed retiree list is empty, the run issues no
termination call, every set_desired_capacity call it issues carries
exactly the desired capacity read at run start (so no desired-capacity
increase is ever requested), and the net effect of the desired-capacity
affecting calls leaves the desired capacity at its run-start value. -/
theorem empty_retiree_list_preserves_desired_capacity
    (opts : CliOptions) (asg0 asg1 asg2 : Autoscaler) (env : MutEnv)
    (h : instancesToKill opts asg2 = []) :
    terminationCalls (mainRun opts (some asg0) asg1 asg2 env).trace = [] ∧
    (∀ c ∈ desiredSetCalls (mainRun opts (some asg0) asg1 asg2 env).trace,
        c.2 = asg0.desiredCapacity) ∧
    finalDesired asg0.desiredCapacity (mainRun opts (some asg0) asg1 asg2 env).trace
      = asg0.desiredCapacity := by
  have hpre1 : terminationCalls (preLoopTrace opts asg0 asg2) = [] :=
    terminationCalls_preLoopTrace opts asg0 asg2
  have hpre2 : desiredSetCalls (preLoopTrace opts asg0 asg2) = [] :=
    desiredSetCalls_preLoopTrace_empty opts asg0 asg2 h
  have hloop : retireLoop env asg2 [] = ([], none, false) := rfl
  unfold mainRun
  dsimp only
  rw [h, hloop]
  simp only [List.length_nil, gt_iff_lt, lt_self_iff_false, decide_False, Bool.false_and,
    Bool.false_eq_true, if_false, Option.isSome_none, Bool.not_false, Bool.true_and]
  have t1 := terminationCalls_maxBumpEvents opts asg0
  have d1 := desiredSetCalls_maxBumpEvents opts asg0
  have f1 : finalDesired asg0.desiredCapacity (maxBumpEvents opts asg0)
      = asg0.desiredCapacity := finalDesired_of_no_calls _ _ d1 t1
  have t2 : terminationCalls (maxBumpEvents opts asg0 ++ forceResumeEvents opts) = [] := by
    rw [terminationCalls_append, t1, terminationCalls_forceResumeEvents]
    rfl
  have d2 : desiredSetCalls (maxBumpEvents opts asg0 ++ forceResumeEvents opts) = [] := by
    rw [desiredSetCalls_append, d1, desiredSetCalls_forceResumeEvents]
    rfl
  have f2 : finalDesired asg0.desiredCapacity
      (maxBumpEvents opts asg0 ++ forceResumeEvents opts) = asg0.desiredCapacity :=
    finalDesired_of_no_calls _ _ d2 t2
  have t3 : terminationCalls (preLoopTrace opts asg0 asg2 ++ []
      ++ compensateEvents opts asg0.desiredCapacity false) = [] := by
    rw [terminationCalls_append, terminationCalls_append, hpre1,
      terminationCalls_compensateEvents]
    rfl
  have d3 : desiredSetCalls (preLoopTrace opts asg0 asg2 ++ []
      ++ compensateEvents opts asg0.desiredCapacity false)
      = [(opts.autoscaler, asg0.desiredCapacity)] := by
    rw [desiredSetCalls_append, desiredSetCalls_append, hpre2,
      desiredSetCalls_compensateEvents]
    rfl
  have f3 : finalDesired asg0.desiredCapacity (preLoopTrace opts asg0 asg2 ++ []
      ++ compensateEvents opts asg0.desiredCapacity false) = asg0.desiredCapacity := by
    rw [finalDesired_append, finalDesired_append,
      finalDesired_of_no_calls _ _ hpre2 hpre1]
    rw [show finalDesired asg0.desiredCapacity ([] : List Event)
        = asg0.desiredCapacity from rfl]
    rw [finalDesired_compensateEvents]
    rfl
  have t45 : terminationCalls (preLoopTrace opts asg0 asg2 ++ []
      ++ compensateEvents opts asg0.desiredCapacity false
      ++ [resumeEvent opts] ++ maxRestoreEvents opts asg0) = [] := by
    rw [terminationCalls_append, terminationCalls_append, t3,
      terminationCalls_resumeEvent, terminationCalls_maxRestoreEvents]
    rfl
  have d45 : desiredSetCalls (preLoopTrace opts asg0 asg2 ++ []
      ++ compensateEvents opts asg0.desiredCapacity false
      ++ [resumeEvent opts] ++ maxRestoreEvents opts asg0)
      = [(opts.autoscaler, asg0.desiredCapacity)] := by
    rw [desiredSetCalls_append, desiredSetCalls_append, d3,
      desiredSetCalls_resumeEvent, desiredSetCalls_maxRestoreEvents]
    rfl
  have f45 : finalDesired asg0.desiredCapacity (preLoopTrace opts asg0 asg2 ++ []
      ++ compensateEvents opts asg0.desiredCapacity false
      ++ [resumeEvent opts] ++ maxRestoreEvents opts asg0) = asg0.desiredCapacity := by
    rw [finalDesired_append, finalDesired_append, f3,
      finalDesired_of_no_calls _ _ (desiredSetCalls_resumeEvent opts)
        (terminationCalls_resumeEvent opts),
      finalDesired_of_no_calls _ _ (desiredSetCalls_maxRestoreEvents opts asg0)
        (terminationCalls_maxRestoreEvents opts asg0)]
  by_cases h1 : (asg0.maxSize == asg0.desiredCapacity
      && !(env.updateMaxSizeOk (asg0.maxSize + 1))) = true
  · rw [if_pos h1]
    dsimp only
    refine ⟨t1, ?_, f1⟩
    intro c hc
    rw [d1] at hc
    simp at hc
  · rw [if_neg h1]
    by_cases h2 : (!opts.force && requiredProcessSuspended asg0) = true
    · rw [if_pos h2]
      dsimp only
      refine ⟨t2, ?_, f2⟩
      intro c hc
      rw [d2] at hc
      simp at hc
    · rw [if_neg h2]
      by_cases h3 : (!(env.setDesiredCapacityOk asg0.desiredCapacity)) = true
      · rw [if_pos h3]
        dsimp only
        refine ⟨t3, ?_, f3⟩
        intro c hc
        rw [d3] at hc
        simp only [List.mem_singleton] at hc
        rw [hc]
      · rw [if_neg h3]
        by_cases h4 : (asg0.maxSize == asg0.desiredCapacity
            && !(env.updateMaxSizeOk asg0.maxSize)) = true
        · rw [if_pos h4]
          dsimp only
          refine ⟨t45, ?_, f45⟩
          intro c hc
          rw [d45] at hc
          simp only [List.mem_singleton] at hc
          rw [hc]
        · rw [if_neg h4]
          dsimp only
          refine ⟨t45, ?_, f45⟩
          intro c hc
          rw [d45] at hc
          simp only [List.mem_singleton] at hc
          rw [hc]

/-- A fleet with no healthy members, whose computed retiree list is
empty. -/
def witnessAsgNoHealthy : Autoscaler := { witnessAsg with instances := [] }

theorem empty_retiree_list_preserves_desired_capacity_witness :
    terminationCalls
        (mainRun witnessOpts (some witnessAsgNoHealthy) witnessAsgNoHealthy
          witnessAsgNoHealthy witnessEnvOk).trace = [] ∧
    (∀ c ∈ desiredSetCalls
        (mainRun witnessOpts (some witnessAsgNoHealthy) witnessAsgNoHealthy
          witnessAsgNoHealthy witnessEnvOk).trace,
        c.2 = witnessAsgNoHealthy.desiredCapacity) ∧
    finalDesired witnessAsgNoHealthy.desiredCapacity
        (mainRun witnessOpts (some witnessAsgNoHealthy) witnessAsgNoHealthy
          witnessAsgNoHealthy witnessEnvOk).trace
      = witnessAsgNoHealthy.desiredCapacity :=
  empty_retiree_list_preserves_desired_capacity witnessOpts witnessAsgNoHealthy
    witnessAsgNoHealthy witnessAsgNoHealthy witnessEnvOk (by decide)
